import Mathlib

/-!
# SmartFlow AI – verification of the 5-year multi-stage production simulator

Shallow embedding of the simulation engine in `src/app.py` (the repository's
only source file). The script is a Streamlit app; its engine is the block run
when the "Simulate This Year" button is pressed while `year <= 5`. Machine
arithmetic in the source is Python float arithmetic on integer-valued data;
we embed it over `ℚ` (exact arithmetic), with the two `np.random.uniform`
draws injected as explicit parameters, as the spec's design notes prescribe.
-/

namespace SmartFlow

/-! ## Fixed parameters (src/app.py lines 22-38) -/

def BASE_MONTHLY_DEMAND : ℚ := 10000

def BREAKDOWN_PROB : ℚ := 8 / 100

def AVAILABLE_HOURS_MONTH : ℚ := 160

def UNITS_PER_MACHINE_PER_HOUR : ℚ := 7

def BODY_FACTOR : ℚ := 5

def PAINT_FACTOR : ℚ := 7

def ENGINE_FACTOR : ℚ := 3

def FINAL_FACTOR : ℚ := 4

def MACHINE_COST_PER_HOUR : ℚ := 400

def LABOR_COST_PER_HOUR : ℚ := 50

def SETUP_COST_PER_MACHINE : ℚ := 100000

def HOLDING_COST_PER_UNIT : ℚ := 50

def SHORTAGE_COST_PER_UNIT : ℚ := 200

def WIP_HOLDING_COST_PER_UNIT : ℚ := 30

/-! ## Rounding

Python's builtin `round` rounds half to even; `round(x, 2)` rounds to two
decimal places. `src/app.py` uses both only when storing the per-year result
record (lines 181-199). -/

/-- Python `round(q)`: nearest integer, ties to even. -/
def pyRound (q : ℚ) : ℤ :=
  if q - (⌊q⌋ : ℚ) < 1 / 2 then ⌊q⌋
  else if (1 / 2 : ℚ) < q - (⌊q⌋ : ℚ) then ⌊q⌋ + 1
  else if ⌊q⌋ % 2 = 0 then ⌊q⌋ else ⌊q⌋ + 1

/-- Python `round(q, 2)`: nearest multiple of 1/100, ties to even. -/
def pyRound2 (q : ℚ) : ℚ := (pyRound (q * 100) : ℚ) / 100

/-! ## Data model -/

/-- One row of `st.session_state.results` (src/app.py lines 181-199). The
source stores `round`ed values; `shortage` itself is not stored, only its
cost. -/
structure YearResult where
  year : ℕ
  demand : ℤ
  production : ℤ
  units_sold : ℤ
  fg_inventory : ℤ
  wip_body : ℤ
  wip_paint : ℤ
  wip_engine : ℤ
  machine_cost : ℤ
  setup_cost : ℤ
  labor_cost : ℤ
  holding_cost_fg : ℤ
  holding_cost_wip : ℤ
  shortage_cost : ℤ
  inflation_pct : ℚ
  total_cost : ℤ
  cost_per_unit : ℚ
  deriving Repr, DecidableEq

/-- The persistent session state (src/app.py lines 44-54). -/
structure SimState where
  year : ℕ
  monthly_demand : ℚ
  fg_inventory : ℚ
  wip_body : ℚ
  wip_paint : ℚ
  wip_engine : ℚ
  results : List YearResult
  total_cost : ℚ
  total_units : ℚ
  deriving Repr, DecidableEq

/-- Session-state defaults (src/app.py lines 44-58). -/
def initState : SimState :=
  { year := 1
    monthly_demand := BASE_MONTHLY_DEMAND
    fg_inventory := 0
    wip_body := 0
    wip_paint := 0
    wip_engine := 0
    results := []
    total_cost := 0
    total_units := 0 }

/-- The planner's inputs for one year (src/app.py lines 73-80): four machine
counts from `st.number_input(_, 1, 20, 4)`, overtime hours from
`st.number_input(_, 0, 200, 20)`, maintenance efficiency from
`st.slider(_, 0.0, 1.0, 0.5)`. -/
structure Decision where
  machines_body : ℕ
  machines_paint : ℕ
  machines_engine : ℕ
  machines_final : ℕ
  overtime : ℕ
  maintenance_eff : ℚ
  deriving Repr, DecidableEq

/-- The two `np.random.uniform` draws of one simulated year
(src/app.py lines 106 and 110), injected as data. -/
structure Draws where
  demand_growth : ℚ
  inflation : ℚ
  deriving Repr, DecidableEq

/-- Bounds enforced by the input widgets (src/app.py lines 73-80). -/
def ValidDecision (d : Decision) : Prop :=
  1 ≤ d.machines_body ∧ d.machines_body ≤ 20 ∧
  1 ≤ d.machines_paint ∧ d.machines_paint ≤ 20 ∧
  1 ≤ d.machines_engine ∧ d.machines_engine ≤ 20 ∧
  1 ≤ d.machines_final ∧ d.machines_final ≤ 20 ∧
  d.overtime ≤ 200 ∧
  0 ≤ d.maintenance_eff ∧ d.maintenance_eff ≤ 1

/-- Ranges of the uniform draws (src/app.py lines 106 and 110). -/
def ValidDraws (r : Draws) : Prop :=
  -(1 / 10) ≤ r.demand_growth ∧ r.demand_growth ≤ 1 / 4 ∧
  6 / 100 ≤ r.inflation ∧ r.inflation ≤ 12 / 100

/-! ## Capacity model (src/app.py lines 82, 112-119) -/

def yearly_hours : ℚ := AVAILABLE_HOURS_MONTH * 12

def total_machines (d : Decision) : ℕ :=
  d.machines_body + d.machines_paint + d.machines_engine + d.machines_final

def effective_breakdown (d : Decision) : ℚ :=
  BREAKDOWN_PROB * (1 - d.maintenance_eff)

def base_capacity (d : Decision) : ℚ :=
  yearly_hours * UNITS_PER_MACHINE_PER_HOUR * (1 - effective_breakdown d)

def cap_body (d : Decision) : ℚ := (d.machines_body : ℚ) * base_capacity d * BODY_FACTOR

def cap_paint (d : Decision) : ℚ := (d.machines_paint : ℚ) * base_capacity d * PAINT_FACTOR

def cap_engine (d : Decision) : ℚ := (d.machines_engine : ℚ) * base_capacity d * ENGINE_FACTOR

def cap_final (d : Decision) : ℚ := (d.machines_final : ℚ) * base_capacity d * FINAL_FACTOR

/-! ## Stage flow with WIP (src/app.py lines 125-143) -/

structure FlowResult where
  body_output : ℚ
  paint_output : ℚ
  engine_output : ℚ
  final_output : ℚ
  wip_body_out : ℚ
  wip_paint_out : ℚ
  wip_engine_out : ℚ
  deriving Repr, DecidableEq

/-- Literal translation of src/app.py lines 125-143: the four stages in
order, each stage taking `min` with its capacity and the three WIP buffers
updated with `max (… ) 0`. The final stage has no WIP buffer in the source;
`final_input = engine_output` and any excess over `cap_final` is dropped. -/
def stageFlow (cb cp ce cf wb wp we : ℚ) : FlowResult :=
  let body_output := min cb (cb + wb)
  let wip_body_out := max (wb + cb - body_output) 0
  let paint_input := body_output + wp
  let paint_output := min cp paint_input
  let wip_paint_out := max (paint_input - paint_output) 0
  let engine_input := paint_output + we
  let engine_output := min ce engine_input
  let wip_engine_out := max (engine_input - engine_output) 0
  let final_input := engine_output
  let final_output := min cf final_input
  { body_output := body_output
    paint_output := paint_output
    engine_output := engine_output
    final_output := final_output
    wip_body_out := wip_body_out
    wip_paint_out := wip_paint_out
    wip_engine_out := wip_engine_out }

/-- Stage flow of one transition from state `s` under decision `d`. -/
def stepFlow (s : SimState) (d : Decision) : FlowResult :=
  stageFlow (cap_body d) (cap_paint d) (cap_engine d) (cap_final d)
    s.wip_body s.wip_paint s.wip_engine

/-! ## Inventory and sales resolution (src/app.py lines 149-152) -/

structure Resolved where
  available_units : ℚ
  units_sold : ℚ
  ending_inventory : ℚ
  shortage : ℚ
  deriving Repr, DecidableEq

/-- Literal translation of src/app.py lines 149-152. -/
def resolveSales (production opening demand : ℚ) : Resolved :=
  let available_units := production + opening
  { available_units := available_units
    units_sold := min demand available_units
    ending_inventory := max (available_units - demand) 0
    shortage := max (demand - available_units) 0 }

/-- Demand for the simulated year: the demand level is first multiplied by
`(1 + demand_growth)` and the result by 12 (src/app.py lines 106-108). -/
def yearlyDemand (s : SimState) (r : Draws) : ℚ :=
  s.monthly_demand * (1 + r.demand_growth) * 12

/-- Sales resolution of one transition: production is the final stage's
output (src/app.py line 143). -/
def stepRes (s : SimState) (d : Decision) (r : Draws) : Resolved :=
  resolveSales (stepFlow s d).final_output s.fg_inventory (yearlyDemand s r)

/-! ## Costs (src/app.py lines 89-91 and 160-178) -/

def machine_cost_preview (d : Decision) : ℚ :=
  MACHINE_COST_PER_HOUR * (total_machines d : ℚ) * yearly_hours

def setup_cost_preview (d : Decision) : ℚ :=
  SETUP_COST_PER_MACHINE * (total_machines d : ℚ)

def labor_cost_preview (d : Decision) : ℚ :=
  LABOR_COST_PER_HOUR * (d.overtime : ℚ) * 12

def holding_cost_fg (s : SimState) (d : Decision) (r : Draws) : ℚ :=
  (stepRes s d r).ending_inventory * HOLDING_COST_PER_UNIT

def holding_cost_wip (s : SimState) (d : Decision) : ℚ :=
  ((stepFlow s d).wip_body_out + (stepFlow s d).wip_paint_out +
    (stepFlow s d).wip_engine_out) * WIP_HOLDING_COST_PER_UNIT

def shortage_cost (s : SimState) (d : Decision) (r : Draws) : ℚ :=
  (stepRes s d r).shortage * SHORTAGE_COST_PER_UNIT

/-- The six nominal line items of the year, before inflation
(the parenthesised sum in src/app.py lines 169-176). -/
def nominalCost (s : SimState) (d : Decision) (r : Draws) : ℚ :=
  machine_cost_preview d + setup_cost_preview d + labor_cost_preview d +
  holding_cost_fg s d r + holding_cost_wip s d + shortage_cost s d r

/-- Total cost of the year: the nominal sum scaled by this year's
`(1 + inflation)` draw (src/app.py line 176). -/
def totalCostYear (s : SimState) (d : Decision) (r : Draws) : ℚ :=
  nominalCost s d r * (1 + r.inflation)

/-- Cost per unit with the denominator floored at 1 (src/app.py line 178). -/
def costPerUnit (s : SimState) (d : Decision) (r : Draws) : ℚ :=
  totalCostYear s d r / max (stepRes s d r).units_sold 1

/-! ## The year transition (src/app.py lines 103-206) -/

/-- The result row appended by src/app.py lines 181-199. -/
def mkResult (s : SimState) (d : Decision) (r : Draws) : YearResult :=
  { year := s.year
    demand := pyRound (yearlyDemand s r)
    production := pyRound (stepFlow s d).final_output
    units_sold := pyRound (stepRes s d r).units_sold
    fg_inventory := pyRound (stepRes s d r).ending_inventory
    wip_body := pyRound (stepFlow s d).wip_body_out
    wip_paint := pyRound (stepFlow s d).wip_paint_out
    wip_engine := pyRound (stepFlow s d).wip_engine_out
    machine_cost := pyRound (machine_cost_preview d)
    setup_cost := pyRound (setup_cost_preview d)
    labor_cost := pyRound (labor_cost_preview d)
    holding_cost_fg := pyRound (holding_cost_fg s d r)
    holding_cost_wip := pyRound (holding_cost_wip s d)
    shortage_cost := pyRound (shortage_cost s d r)
    inflation_pct := pyRound2 (r.inflation * 100)
    total_cost := pyRound (totalCostYear s d r)
    cost_per_unit := pyRound2 (costPerUnit s d r) }

/-- One simulated year (the body of `if st.button("Simulate This Year")`,
src/app.py lines 103-206): demand shock, stage flow, sales resolution,
costs, result append, accumulator updates, year increment. -/
def step (s : SimState) (d : Decision) (r : Draws) : SimState :=
  { year := s.year + 1
    monthly_demand := s.monthly_demand * (1 + r.demand_growth)
    fg_inventory := (stepRes s d r).ending_inventory
    wip_body := (stepFlow s d).wip_body_out
    wip_paint := (stepFlow s d).wip_paint_out
    wip_engine := (stepFlow s d).wip_engine_out
    results := s.results ++ [mkResult s d r]
    total_cost := s.total_cost + totalCostYear s d r
    total_units := s.total_units + (stepRes s d r).units_sold }

/-- Modelled from the spec: the error taxonomy of spec section 7 names an
`InvalidStateError`; src/app.py defines no exception type at all. The type
exists here only so that the advance transition's (absence of) error
behaviour is observable. -/
inductive SimError where
  | invalidState
  deriving Repr, DecidableEq

/-- The advance transition as the script executes it: the whole decision and
simulation block is guarded by `if current_year <= 5` (src/app.py line 66).
When the year is beyond 5 the block is skipped — the state is left unchanged
and, since src/app.py contains no `raise`, no exception is produced on any
path: every branch returns `Except.ok`. -/
def advance (s : SimState) (d : Decision) (r : Draws) : Except SimError SimState :=
  if s.year ≤ 5 then Except.ok (step s d r) else Except.ok s

/-! ## Reachable states -/

/-- States reachable from the initial session state by pressing the simulate
button with widget-valid inputs; the draws stay in their uniform ranges and
the guard of src/app.py line 66 restricts transitions to years 1..5. -/
inductive Reachable : SimState → Prop where
  | init : Reachable initState
  | simulate : ∀ s d r, Reachable s → ValidDecision d → ValidDraws r →
      s.year ≤ 5 → Reachable (step s d r)

/-! ## Helper lemmas -/

lemma max_sub_add_min (a dd : ℚ) : max (a - dd) 0 + min dd a = a := by
  rcases le_total dd a with h | h
  · rw [max_eq_left (by linarith), min_eq_left h]; ring
  · rw [max_eq_right (by linarith), min_eq_right h]; ring

lemma resolveSales_available (p i dd : ℚ) :
    (resolveSales p i dd).available_units = p + i := rfl

lemma resolveSales_sold (p i dd : ℚ) :
    (resolveSales p i dd).units_sold = min dd (p + i) := rfl

lemma resolveSales_ending (p i dd : ℚ) :
    (resolveSales p i dd).ending_inventory = max (p + i - dd) 0 := rfl

lemma resolveSales_shortage (p i dd : ℚ) :
    (resolveSales p i dd).shortage = max (dd - (p + i)) 0 := rfl

lemma resolveSales_conservation (p i dd : ℚ) :
    (resolveSales p i dd).ending_inventory + (resolveSales p i dd).units_sold = p + i := by
  rw [resolveSales_ending, resolveSales_sold, max_sub_add_min]

lemma resolveSales_cases (p i dd : ℚ) :
    ((resolveSales p i dd).available_units = dd →
      (resolveSales p i dd).ending_inventory = 0 ∧ (resolveSales p i dd).shortage = 0) ∧
    ((resolveSales p i dd).available_units ≠ dd →
      (0 < (resolveSales p i dd).ending_inventory ∧ (resolveSales p i dd).shortage = 0) ∨
      ((resolveSales p i dd).ending_inventory = 0 ∧ 0 < (resolveSales p i dd).shortage)) := by
  rw [resolveSales_available, resolveSales_ending, resolveSales_shortage]
  constructor
  · intro h
    rw [h]
    simp
  · intro h
    rcases lt_trichotomy (p + i) dd with hlt | heq | hgt
    · right
      constructor
      · rw [max_eq_right (by linarith)]
      · rw [max_eq_left (by linarith)]; linarith
    · exact absurd heq h
    · left
      constructor
      · rw [max_eq_left (by linarith)]; linarith
      · rw [max_eq_right (by linarith)]

lemma stageFlow_body (cb cp ce cf wb wp we : ℚ) :
    (stageFlow cb cp ce cf wb wp we).body_output = min cb (cb + wb) := rfl

lemma stageFlow_wip_body (cb cp ce cf wb wp we : ℚ) :
    (stageFlow cb cp ce cf wb wp we).wip_body_out =
      max (wb + cb - min cb (cb + wb)) 0 := rfl

lemma stageFlow_paint (cb cp ce cf wb wp we : ℚ) :
    (stageFlow cb cp ce cf wb wp we).paint_output =
      min cp ((stageFlow cb cp ce cf wb wp we).body_output + wp) := rfl

lemma stageFlow_wip_paint (cb cp ce cf wb wp we : ℚ) :
    (stageFlow cb cp ce cf wb wp we).wip_paint_out =
      ((stageFlow cb cp ce cf wb wp we).body_output + wp) -
        (stageFlow cb cp ce cf wb wp we).paint_output := by
  have hle : (stageFlow cb cp ce cf wb wp we).paint_output ≤
      (stageFlow cb cp ce cf wb wp we).body_output + wp := by
    rw [stageFlow_paint]; exact min_le_right _ _
  show max (((stageFlow cb cp ce cf wb wp we).body_output + wp) -
      (stageFlow cb cp ce cf wb wp we).paint_output) 0 = _
  rw [max_eq_left (by linarith)]

lemma stageFlow_engine (cb cp ce cf wb wp we : ℚ) :
    (stageFlow cb cp ce cf wb wp we).engine_output =
      min ce ((stageFlow cb cp ce cf wb wp we).paint_output + we) := rfl

lemma stageFlow_wip_engine (cb cp ce cf wb wp we : ℚ) :
    (stageFlow cb cp ce cf wb wp we).wip_engine_out =
      ((stageFlow cb cp ce cf wb wp we).paint_output + we) -
        (stageFlow cb cp ce cf wb wp we).engine_output := by
  have hle : (stageFlow cb cp ce cf wb wp we).engine_output ≤
      (stageFlow cb cp ce cf wb wp we).paint_output + we := by
    rw [stageFlow_engine]; exact min_le_right _ _
  show max (((stageFlow cb cp ce cf wb wp we).paint_output + we) -
      (stageFlow cb cp ce cf wb wp we).engine_output) 0 = _
  rw [max_eq_left (by linarith)]

lemma stageFlow_final (cb cp ce cf wb wp we : ℚ) :
    (stageFlow cb cp ce cf wb wp we).final_output =
      min cf (stageFlow cb cp ce cf wb wp we).engine_output := rfl

/-- Conservation through the three buffered stages: what the body stage
emits plus the paint and engine WIP carried in equals the engine stage's
output plus the WIP carried out. -/
lemma stageFlow_conserve (cb cp ce cf wb wp we : ℚ) :
    (stageFlow cb cp ce cf wb wp we).body_output + wp + we =
      (stageFlow cb cp ce cf wb wp we).engine_output +
        (stageFlow cb cp ce cf wb wp we).wip_paint_out +
        (stageFlow cb cp ce cf wb wp we).wip_engine_out := by
  rw [stageFlow_wip_paint, stageFlow_wip_engine]
  ring

/-- The state invariant maintained by every reachable state: year at least
1, non-negative demand level and inventories, body WIP pinned at 0, and one
log row per completed year. -/
lemma reachable_invariant (s : SimState) (h : Reachable s) :
    1 ≤ s.year ∧ 0 ≤ s.monthly_demand ∧ 0 ≤ s.fg_inventory ∧ s.wip_body = 0 ∧
    0 ≤ s.wip_paint ∧ 0 ≤ s.wip_engine ∧ s.results.length = s.year - 1 := by
  induction h with
  | init =>
      refine ⟨le_refl 1, by norm_num [initState, BASE_MONTHLY_DEMAND], ?_, rfl, ?_, ?_, rfl⟩ <;>
        norm_num [initState]
  | simulate s d r hs hd hr hy ih =>
      obtain ⟨hy1, hmd, hfg, hwb, hwp, hwe, hlen⟩ := ih
      refine ⟨?_, ?_, ?_, ?_, ?_, ?_, ?_⟩
      · show 1 ≤ s.year + 1
        omega
      · show 0 ≤ s.monthly_demand * (1 + r.demand_growth)
        have hg := hr.1
        apply mul_nonneg hmd
        linarith
      · show 0 ≤ (stepRes s d r).ending_inventory
        rw [stepRes, resolveSales_ending]
        exact le_max_right _ _
      · show (stepFlow s d).wip_body_out = 0
        rw [stepFlow, stageFlow_wip_body, hwb]
        simp
      · show 0 ≤ (stepFlow s d).wip_paint_out
        rw [stepFlow]
        exact le_max_right _ _
      · show 0 ≤ (stepFlow s d).wip_engine_out
        rw [stepFlow]
        exact le_max_right _ _
      · show (s.results ++ [mkResult s d r]).length = (s.year + 1) - 1
        rw [List.length_append]
        simp only [List.length_singleton]
        omega

/-! ## Claims -/

/-- C1: for production `p ≥ 0`, opening inventory `i ≥ 0` and demand
`dd ≥ 0`, the resolver (src/app.py lines 149-152) computes
`available_units = p + i`, `units_sold = min(dd, available)`,
`ending_inventory = max(available - dd, 0)`,
`shortage = max(dd - available, 0)`; the shortage scenario
(i=0, p=8000, d=10000) yields sold 8000, ending 0, shortage 2000, and the
surplus scenario (i=500, p=9800, d=10000) yields available 10300,
sold 10000, ending 300, shortage 0. -/
theorem c1_resolver (p i dd : ℚ) (hp : 0 ≤ p) (hi : 0 ≤ i) (hd : 0 ≤ dd) :
    ((resolveSales p i dd).available_units = p + i ∧
     (resolveSales p i dd).units_sold = min dd (p + i) ∧
     (resolveSales p i dd).ending_inventory = max (p + i - dd) 0 ∧
     (resolveSales p i dd).shortage = max (dd - (p + i)) 0) ∧
    ((resolveSales 8000 0 10000).units_sold = 8000 ∧
     (resolveSales 8000 0 10000).ending_inventory = 0 ∧
     (resolveSales 8000 0 10000).shortage = 2000) ∧
    ((resolveSales 9800 500 10000).available_units = 10300 ∧
     (resolveSales 9800 500 10000).units_sold = 10000 ∧
     (resolveSales 9800 500 10000).ending_inventory = 300 ∧
     (resolveSales 9800 500 10000).shortage = 0) := by
  refine ⟨⟨rfl, rfl, rfl, rfl⟩, ⟨?_, ?_, ?_⟩, ⟨?_, ?_, ?_, ?_⟩⟩
  · rw [resolveSales_sold]; norm_num [min_def]
  · rw [resolveSales_ending]; norm_num [max_def]
  · rw [resolveSales_shortage]; norm_num [max_def]
  · rw [resolveSales_available]; norm_num
  · rw [resolveSales_sold]; norm_num [min_def]
  · rw [resolveSales_ending]; norm_num [max_def]
  · rw [resolveSales_shortage]; norm_num [max_def]

/-- Witness for C1 at the shortage scenario. -/
theorem c1_resolver_witness :
    (0 : ℚ) ≤ 8000 ∧ (resolveSales 8000 0 10000).units_sold = 8000 :=
  ⟨by norm_num,
    (c1_resolver 8000 0 10000 (by norm_num) (by norm_num) (by norm_num)).2.1.1⟩

/-- C2: for every transition, ending inventory plus units sold equals
production plus opening inventory exactly, and exactly one of ending
inventory and shortage is strictly positive unless available units equal
demand, in which case both are zero. -/
theorem c2_conservation (s : SimState) (d : Decision) (r : Draws) :
    (stepRes s d r).ending_inventory + (stepRes s d r).units_sold =
      (stepFlow s d).final_output + s.fg_inventory ∧
    ((stepRes s d r).available_units = yearlyDemand s r →
      (stepRes s d r).ending_inventory = 0 ∧ (stepRes s d r).shortage = 0) ∧
    ((stepRes s d r).available_units ≠ yearlyDemand s r →
      (0 < (stepRes s d r).ending_inventory ∧ (stepRes s d r).shortage = 0) ∨
      ((stepRes s d r).ending_inventory = 0 ∧ 0 < (stepRes s d r).shortage)) :=
  ⟨resolveSales_conservation (stepFlow s d).final_output s.fg_inventory (yearlyDemand s r),
   (resolveSales_cases (stepFlow s d).final_output s.fg_inventory (yearlyDemand s r)).1,
   (resolveSales_cases (stepFlow s d).final_output s.fg_inventory (yearlyDemand s r)).2⟩

/-- C4: in every reachable state the finished-goods inventory and all WIP
buffers are non-negative, and after any further transition the ending
inventory, shortage, new finished-goods inventory and new WIP buffers are
non-negative as well. -/
theorem c4_nonneg (s : SimState) (h : Reachable s) :
    (0 ≤ s.fg_inventory ∧ 0 ≤ s.wip_body ∧ 0 ≤ s.wip_paint ∧ 0 ≤ s.wip_engine) ∧
    ∀ d r, 0 ≤ (stepRes s d r).ending_inventory ∧ 0 ≤ (stepRes s d r).shortage ∧
      0 ≤ (step s d r).fg_inventory ∧ 0 ≤ (step s d r).wip_body ∧
      0 ≤ (step s d r).wip_paint ∧ 0 ≤ (step s d r).wip_engine := by
  obtain ⟨-, -, hfg, hwb, hwp, hwe, -⟩ := reachable_invariant s h
  refine ⟨⟨hfg, by rw [hwb], hwp, hwe⟩, ?_⟩
  intro d r
  refine ⟨?_, ?_, ?_, ?_, ?_, ?_⟩
  · rw [stepRes, resolveSales_ending]; exact le_max_right _ _
  · rw [stepRes, resolveSales_shortage]; exact le_max_right _ _
  · show 0 ≤ (stepRes s d r).ending_inventory
    rw [stepRes, resolveSales_ending]; exact le_max_right _ _
  · show 0 ≤ (stepFlow s d).wip_body_out
    rw [stepFlow, stageFlow_wip_body]; exact le_max_right _ _
  · show 0 ≤ (stepFlow s d).wip_paint_out
    rw [stepFlow]; exact le_max_right _ _
  · show 0 ≤ (stepFlow s d).wip_engine_out
    rw [stepFlow]; exact le_max_right _ _

/-- Witness for C4 at the initial state. -/
theorem c4_nonneg_witness :
    0 ≤ initState.fg_inventory ∧ 0 ≤ initState.wip_body ∧
    0 ≤ initState.wip_paint ∧ 0 ≤ initState.wip_engine :=
  (c4_nonneg initState Reachable.init).1

/-- C9: in every reachable state the year log has exactly
`current_year - 1` rows, and every transition increments the year by
exactly 1 and appends exactly one row. -/
theorem c9_year_log (s : SimState) (h : Reachable s) :
    s.results.length = s.year - 1 ∧
    ∀ d r, (step s d r).year = s.year + 1 ∧
      (step s d r).results.length = s.results.length + 1 := by
  refine ⟨(reachable_invariant s h).2.2.2.2.2.2, ?_⟩
  intro d r
  refine ⟨rfl, ?_⟩
  show (s.results ++ [mkResult s d r]).length = s.results.length + 1
  simp

/-- Witness for C9 at the initial state. -/
theorem c9_year_log_witness : initState.results.length = initState.year - 1 :=
  (c9_year_log initState Reachable.init).1

/-- C10: in every reachable state the body-stage WIP buffer is 0 (its
initial value); the body stage's output is always its full capacity
(`min(cap_body, cap_body + wip_body) = cap_body`), and every transition
leaves the body WIP unchanged. -/
theorem c10_body_wip_frame (s : SimState) (h : Reachable s) :
    s.wip_body = 0 ∧
    ∀ d : Decision, (stepFlow s d).body_output = cap_body d ∧
      ∀ r : Draws, (step s d r).wip_body = s.wip_body := by
  have hwb := (reachable_invariant s h).2.2.2.1
  refine ⟨hwb, ?_⟩
  intro d
  constructor
  · rw [stepFlow, stageFlow_body, hwb, add_zero, min_self]
  · intro r
    show (stepFlow s d).wip_body_out = s.wip_body
    rw [stepFlow, stageFlow_wip_body, hwb]
    simp

/-- Witness for C10 at the initial state. -/
theorem c10_body_wip_frame_witness : initState.wip_body = 0 :=
  (c10_body_wip_frame initState Reachable.init).1

/-- C3 counterexample: the final stage has no WIP buffer in src/app.py
(lines 139-141: `final_input = engine_output`; nothing stores the
remainder), so the pipeline loses in-process units whenever the final
stage's capacity binds. With capacities body=paint=engine=10, final=5 and
all WIP 0, the body stage emits 10 units but only 5 leave the pipeline and
no WIP holds the other 5. -/
theorem c3_counterexample :
    ¬ ((stageFlow 10 10 10 5 0 0 0).body_output + 0 + 0 =
       (stageFlow 10 10 10 5 0 0 0).final_output +
         (stageFlow 10 10 10 5 0 0 0).wip_paint_out +
         (stageFlow 10 10 10 5 0 0 0).wip_engine_out) := by
  norm_num [stageFlow, min_def, max_def]

/-- C3 amended: with non-negative body WIP, the body stage outputs its full
capacity and leaves its WIP unchanged; the paint and engine stages output
`min(capacity, upstream + wip)` and accumulate the unconsumed remainder as
their new WIP, so units are conserved through body→paint→engine; the final
stage outputs `min(cap_final, engine_output)` and, having no WIP buffer,
discards any engine output beyond its capacity. -/
theorem c3_buffered_flow (cb cp ce cf wb wp we : ℚ) (hwb : 0 ≤ wb) :
    (stageFlow cb cp ce cf wb wp we).body_output = cb ∧
    (stageFlow cb cp ce cf wb wp we).wip_body_out = wb ∧
    (stageFlow cb cp ce cf wb wp we).paint_output =
      min cp ((stageFlow cb cp ce cf wb wp we).body_output + wp) ∧
    (stageFlow cb cp ce cf wb wp we).wip_paint_out =
      ((stageFlow cb cp ce cf wb wp we).body_output + wp) -
        (stageFlow cb cp ce cf wb wp we).paint_output ∧
    (stageFlow cb cp ce cf wb wp we).engine_output =
      min ce ((stageFlow cb cp ce cf wb wp we).paint_output + we) ∧
    (stageFlow cb cp ce cf wb wp we).wip_engine_out =
      ((stageFlow cb cp ce cf wb wp we).paint_output + we) -
        (stageFlow cb cp ce cf wb wp we).engine_output ∧
    (stageFlow cb cp ce cf wb wp we).final_output =
      min cf (stageFlow cb cp ce cf wb wp we).engine_output ∧
    (stageFlow cb cp ce cf wb wp we).body_output + wp + we =
      (stageFlow cb cp ce cf wb wp we).engine_output +
        (stageFlow cb cp ce cf wb wp we).wip_paint_out +
        (stageFlow cb cp ce cf wb wp we).wip_engine_out := by
  have hbody : (stageFlow cb cp ce cf wb wp we).body_output = cb := by
    rw [stageFlow_body, min_eq_left (by linarith)]
  refine ⟨hbody, ?_, stageFlow_paint cb cp ce cf wb wp we,
    stageFlow_wip_paint cb cp ce cf wb wp we,
    stageFlow_engine cb cp ce cf wb wp we,
    stageFlow_wip_engine cb cp ce cf wb wp we,
    stageFlow_final cb cp ce cf wb wp we,
    stageFlow_conserve cb cp ce cf wb wp we⟩
  rw [stageFlow_wip_body, min_eq_left (by linarith)]
  have h2 : wb + cb - cb = wb := by ring
  rw [h2]
  exact max_eq_left hwb

/-- Witness for the amended C3 at unit capacities and empty buffers. -/
theorem c3_buffered_flow_witness : (stageFlow 1 1 1 1 0 0 0).body_output = 1 :=
  (c3_buffered_flow 1 1 1 1 0 0 0 (by norm_num)).1

/-- Default decision values of the input widgets (src/app.py lines 73-80). -/
def decisionDefault : Decision :=
  { machines_body := 4
    machines_paint := 4
    machines_engine := 4
    machines_final := 4
    overtime := 20
    maintenance_eff := 1 / 2 }

/-- Draws inside the uniform ranges of src/app.py lines 106 and 110. -/
def drawsDefault : Draws := { demand_growth := 0, inflation := 1 / 10 }

/-- A completed-simulation state: the year counter is past the horizon. -/
def stateYear6 : SimState := { initState with year := 6 }

/-- C5 counterexample: advancing in the COMPLETE state (year 6) leaves the
state unchanged but returns normally — it does not fail with
`InvalidStateError` (src/app.py raises no exception anywhere; line 66 merely
guards the simulation block with `if current_year <= 5`). -/
theorem c5_counterexample :
    advance stateYear6 decisionDefault drawsDefault = Except.ok stateYear6 ∧
    advance stateYear6 decisionDefault drawsDefault ≠
      Except.error SimError.invalidState := by
  have h1 : advance stateYear6 decisionDefault drawsDefault = Except.ok stateYear6 := by
    rw [advance, if_neg]
    decide
  refine ⟨h1, ?_⟩
  rw [h1]
  simp

/-- C5 amended: calling advance when `current_year > 5` is a silent no-op:
the state is unchanged and no record is appended, but no `InvalidStateError`
is raised — src/app.py defines no exception and simply skips the guarded
block. -/
theorem c5_terminal_noop (s : SimState) (d : Decision) (r : Draws)
    (h : 5 < s.year) : advance s d r = Except.ok s := by
  rw [advance, if_neg (by omega)]

/-- Witness for the amended C5 at the year-6 state. -/
theorem c5_terminal_noop_witness :
    advance stateYear6 decisionDefault drawsDefault = Except.ok stateYear6 :=
  c5_terminal_noop stateYear6 decisionDefault drawsDefault (by decide)

/-- C7: the year's total cost is the sum of the six line items — machine,
setup, labor, FG holding, WIP holding (at a strictly lower per-unit rate
than FG holding) and shortage — each a rate times a quantity, scaled by
`(1 + inflation)` of this year's draw only; the running total accumulates
additively, and the nominal sum does not depend on the inflation draw at
all, so no inflation factor is carried multiplicatively across years. -/
theorem c7_cost_aggregation (s : SimState) (d : Decision) (r : Draws) :
    (step s d r).total_cost = s.total_cost + nominalCost s d r * (1 + r.inflation) ∧
    nominalCost s d r =
      machine_cost_preview d + setup_cost_preview d + labor_cost_preview d +
      holding_cost_fg s d r + holding_cost_wip s d + shortage_cost s d r ∧
    machine_cost_preview d = MACHINE_COST_PER_HOUR * (total_machines d : ℚ) * yearly_hours ∧
    setup_cost_preview d = SETUP_COST_PER_MACHINE * (total_machines d : ℚ) ∧
    labor_cost_preview d = LABOR_COST_PER_HOUR * (d.overtime : ℚ) * 12 ∧
    holding_cost_fg s d r = (stepRes s d r).ending_inventory * HOLDING_COST_PER_UNIT ∧
    holding_cost_wip s d =
      ((stepFlow s d).wip_body_out + (stepFlow s d).wip_paint_out +
        (stepFlow s d).wip_engine_out) * WIP_HOLDING_COST_PER_UNIT ∧
    shortage_cost s d r = (stepRes s d r).shortage * SHORTAGE_COST_PER_UNIT ∧
    WIP_HOLDING_COST_PER_UNIT < HOLDING_COST_PER_UNIT ∧
    (∀ q : ℚ,
      nominalCost s d { demand_growth := r.demand_growth, inflation := q } =
        nominalCost s d r) :=
  ⟨rfl, rfl, rfl, rfl, rfl, rfl, rfl, rfl,
    by norm_num [WIP_HOLDING_COST_PER_UNIT, HOLDING_COST_PER_UNIT],
    fun q => rfl⟩

/-- C8: cost per unit is the year's total cost divided by
`max(units_sold, 1)`; the denominator is at least 1 (so never zero), and
when zero units sell the computation returns the total cost rather than
failing. -/
theorem c8_division_guard (s : SimState) (d : Decision) (r : Draws) :
    costPerUnit s d r = totalCostYear s d r / max (stepRes s d r).units_sold 1 ∧
    1 ≤ max (stepRes s d r).units_sold 1 ∧
    ((stepRes s d r).units_sold = 0 → costPerUnit s d r = totalCostYear s d r) := by
  refine ⟨rfl, le_max_right _ _, ?_⟩
  intro h0
  rw [costPerUnit, h0]
  norm_num

/-- The four stages of the pipeline in their canonical declaration order
(spec section 4.3). -/
inductive Stage where
  | body
  | paint
  | engine
  | final
  deriving Repr, DecidableEq

/-- Position of a stage in the canonical order body, paint, engine, final. -/
def stageIdx : Stage → ℕ
  | Stage.body => 0
  | Stage.paint => 1
  | Stage.engine => 2
  | Stage.final => 3

/-- Capacity of a stage, given the four stage capacities. -/
def capOf (cb cp ce cf : ℚ) : Stage → ℚ
  | Stage.body => cb
  | Stage.paint => cp
  | Stage.engine => ce
  | Stage.final => cf

/-- Modelled from the spec: capacity-only mode (spec section 4.3) is a
variant absent from src/ — src/app.py, the repository's only source file,
implements buffered-flow mode. System throughput is the minimum of all
stage capacities. -/
def capacityOnlyThroughput (cb cp ce cf : ℚ) : ℚ :=
  min (min (min cb cp) ce) cf

/-- Modelled from the spec: the bottleneck of capacity-only mode (spec
section 4.3), absent from src/ — the argmin over stage capacities, ties
broken by the first stage in the canonical order body, paint, engine,
final. -/
def bottleneckStage (cb cp ce cf : ℚ) : Stage :=
  if cb ≤ cp ∧ cb ≤ ce ∧ cb ≤ cf then Stage.body
  else if cp ≤ ce ∧ cp ≤ cf then Stage.paint
  else if ce ≤ cf then Stage.engine
  else Stage.final

/-- C6: capacity-only throughput is a lower bound of all stage capacities
and is attained at the reported bottleneck stage; every stage strictly
earlier in the canonical order than the bottleneck has strictly larger
capacity (argmin with first-declared tie-break); and for capacities
body 480, paint 320, engine 576, final 640 the throughput is 320 and the
bottleneck is the paint stage. -/
theorem c6_bottleneck (cb cp ce cf : ℚ) :
    (∀ st : Stage, capacityOnlyThroughput cb cp ce cf ≤ capOf cb cp ce cf st) ∧
    (capOf cb cp ce cf (bottleneckStage cb cp ce cf) =
        capacityOnlyThroughput cb cp ce cf ∧
      ∀ st : Stage, stageIdx st < stageIdx (bottleneckStage cb cp ce cf) →
        capacityOnlyThroughput cb cp ce cf < capOf cb cp ce cf st) ∧
    capacityOnlyThroughput 480 320 576 640 = 320 ∧
    bottleneckStage 480 320 576 640 = Stage.paint := by
  refine ⟨?_, ?_, ?_, ?_⟩
  · intro st
    cases st with
    | body =>
        exact le_trans (min_le_left _ _) (le_trans (min_le_left _ _) (min_le_left _ _))
    | paint =>
        exact le_trans (min_le_left _ _) (le_trans (min_le_left _ _) (min_le_right _ _))
    | engine =>
        exact le_trans (min_le_left _ _) (min_le_right _ _)
    | final =>
        exact min_le_right _ _
  · simp only [bottleneckStage]
    split_ifs with h1 h2 h3
    · obtain ⟨hbp, hbe, hbf⟩ := h1
      have ht : capacityOnlyThroughput cb cp ce cf = cb := by
        simp only [capacityOnlyThroughput]
        rw [min_eq_left hbp, min_eq_left hbe, min_eq_left hbf]
      refine ⟨by simp only [capOf]; rw [ht], ?_⟩
      intro st hst
      cases st <;> simp [stageIdx] at hst
    · obtain ⟨hpe, hpf⟩ := h2
      have hpb : cp < cb := by
        by_contra hcon
        push_neg at hcon
        exact h1 ⟨hcon, le_trans hcon hpe, le_trans hcon hpf⟩
      have ht : capacityOnlyThroughput cb cp ce cf = cp := by
        simp only [capacityOnlyThroughput]
        rw [min_eq_right hpb.le, min_eq_left hpe, min_eq_left hpf]
      refine ⟨by simp only [capOf]; rw [ht], ?_⟩
      intro st hst
      cases st with
      | body => simp only [capOf]; rw [ht]; exact hpb
      | paint => simp [stageIdx] at hst
      | engine => simp [stageIdx] at hst
      | final => simp [stageIdx] at hst
    · have hep : ce < cp := by
        by_contra hcon
        push_neg at hcon
        exact h2 ⟨hcon, le_trans hcon h3⟩
      have heb : ce < cb := by
        by_contra hcon
        push_neg at hcon
        exact h1 ⟨le_trans hcon hep.le, hcon, le_trans hcon h3⟩
      have ht : capacityOnlyThroughput cb cp ce cf = ce := by
        simp only [capacityOnlyThroughput]
        rw [min_eq_right (le_min heb.le hep.le), min_eq_left h3]
      refine ⟨by simp only [capOf]; rw [ht], ?_⟩
      intro st hst
      cases st with
      | body => simp only [capOf]; rw [ht]; exact heb
      | paint => simp only [capOf]; rw [ht]; exact hep
      | engine => simp [stageIdx] at hst
      | final => simp [stageIdx] at hst
    · push_neg at h3
      have hfp : cf < cp := by
        by_contra hcon
        push_neg at hcon
        exact h2 ⟨(lt_of_le_of_lt hcon h3).le, hcon⟩
      have hfb : cf < cb := by
        by_contra hcon
        push_neg at hcon
        exact h1 ⟨(lt_of_le_of_lt hcon hfp).le, (lt_of_le_of_lt hcon h3).le, hcon⟩
      have ht : capacityOnlyThroughput cb cp ce cf = cf := by
        simp only [capacityOnlyThroughput]
        rw [min_eq_right (le_min (le_min hfb.le hfp.le) h3.le)]
      refine ⟨by simp only [capOf]; rw [ht], ?_⟩
      intro st hst
      cases st with
      | body => simp only [capOf]; rw [ht]; exact hfb
      | paint => simp only [capOf]; rw [ht]; exact hfp
      | engine => simp only [capOf]; rw [ht]; exact h3
      | final => simp [stageIdx] at hst
  · norm_num [capacityOnlyThroughput, min_def]
  · norm_num [bottleneckStage]

end SmartFlow
